import Mathlib

/-!
Verification of `absl::optional_ref<T>` (src/absl/types/optional_ref.h).

Shallow embedding. The runtime state of an `optional_ref<T>` is exactly one
possibly-null pointer (`T* const ptr_`, line 187 of the header). We model
addresses as `Nat` and a null-or-valid pointer as `Option Nat` (`none` = null).
The contents of memory are an explicit heap `mem : Nat → α`, so that two
distinct addresses can hold equal values (the situation the value-based
equality claims are about). Reference-returning accessors (`value()`,
`operator*`) return the referent's address; reading the referent is applying
the heap. Value-returning operations (`value_or`, `as_optional`) return
elements of the value type, read from the heap.

The compile-time side (which constructor overloads exist, and the
`is_convertible_v<U*, T*>` gate of the templated constructors) is modelled
over a reified universe of C++ object types: a class identifier plus a
`const` flag, with a class hierarchy given as a `baseOf` relation.
-/

/-- The runtime state of an `optional_ref`: the single stored field
`T* const ptr_` (header line 187), with `none` playing the role of `nullptr`. -/
structure optional_ref where
  ptr : Option Nat
deriving DecidableEq

/-- The single error kind of the type: what `std::bad_optional_access` /
the abort of a no-exceptions build signals. Build-mode duality (catchable
exception vs process termination) is collapsed into this one error value:
both manifestations are "the EmptyAccess failure" of the spec. -/
inductive AccessError where
  | emptyAccess
deriving DecidableEq

/-- Default constructor and the `std::nullopt_t` constructor (header lines
85-88): both store a null pointer. -/
def optional_ref.ofNullopt : optional_ref := ⟨none⟩

/-- Constructor from a concrete lvalue (header lines 91-93): stores
`std::addressof(input)`, here the address of the argument. -/
def optional_ref.ofLValue (addr : Nat) : optional_ref := ⟨some addr⟩

/-- Constructors from an existing `std::optional` (header lines 97-104):
store the address of the contained value when the container is engaged,
null otherwise. The argument is that conditional address. -/
def optional_ref.ofStdOptional (containedAddr : Option Nat) : optional_ref :=
  ⟨containedAddr⟩

/-- Constructor from a raw `T*` (header lines 107-109): stores the pointer
verbatim, so a null argument produces the empty state. -/
def optional_ref.ofPtr (p : Option Nat) : optional_ref := ⟨p⟩

/-- `has_value()` (header line 131): true iff the stored pointer is non-null. -/
def optional_ref.has_value (r : optional_ref) : Bool := r.ptr.isSome

/-- `operator*` (header lines 164-167): hardening-asserts the pointer is
non-null — modelled as the precondition `h` — and returns the referent
(its address; the referent's value is the heap at that address). -/
def optional_ref.star (r : optional_ref) (h : r.has_value = true) : Nat :=
  r.ptr.get h

/-- `operator->` (header lines 168-171): hardening-asserts non-null and
returns the stored pointer. -/
def optional_ref.arrow (r : optional_ref) (_h : r.has_value = true) : Option Nat :=
  r.ptr

/-- `as_pointer()` (header line 174): the stored pointer, verbatim. -/
def optional_ref.as_pointer (r : optional_ref) : Option Nat := r.ptr

/-- Modelled from the spec: `std::optional<T>::value()`, the checked accessor
of the standard optional container, which `optional_ref::value()` invokes on a
default-constructed (empty) container to raise its error (header line 145).
`std::optional` itself is standard-library code, not part of src/: per the
spec it returns the contents when engaged and signals EmptyAccess when empty. -/
def std_optional_value {α : Type} (o : Option α) : Except AccessError α :=
  match o with
  | some v => Except.ok v
  | none => Except.error AccessError.emptyAccess

/-- `value()` (header lines 137-146): when the pointer is non-null, return the
referent; otherwise run the error logic of `std::optional<T>().value()` on an
empty container — the `, *ptr_` after it in the source is unreachable, modelled
by the dead `Except.ok` branch that merely forwards. -/
def optional_ref.value (r : optional_ref) : Except AccessError Nat :=
  match r.ptr with
  | some p => Except.ok p
  | none =>
    match std_optional_value (none : Option Nat) with
    | Except.error e => Except.error e
    | Except.ok p => Except.ok p

/-- `value_or(default)` (header lines 150-160): `ptr_ != nullptr ? *ptr_ :
static_cast<T>(std::forward<U>(default_value))`. Returns a value of the
element type: the referent's value read from the heap when present, else the
default converted to `T` (the conversion `static_cast<T>` is `conv`). -/
def optional_ref.value_or {α β : Type} (mem : Nat → α) (conv : β → α)
    (r : optional_ref) (d : β) : α :=
  match r.ptr with
  | some p => mem p
  | none => conv d

/-- `as_optional<U>()` (header lines 180-184): empty container when the
pointer is null, else a container holding a copy of the referent implicitly
converted to `U` (the conversion is `conv`; the default `U = std::decay_t<T>`
is `conv = id`). -/
def optional_ref.as_optional {α β : Type} (mem : Nat → α) (conv : α → β)
    (r : optional_ref) : Option β :=
  match r.ptr with
  | none => none
  | some p => some (conv (mem p))

/-! ## Comparison protocol (free operators, header lines 229-289)

Element types of the two operands may differ (`T` vs `U`), so operators take
two heaps and a heterogeneous element comparison `eq : α → β → Bool` — the
latter also standing in for the `enable_if_equality_comparable_t` gate
(header lines 223-225): an operator instantiates exactly when such a
boolean-producing `==` exists for the pair of element types. -/

/-- `operator==(optional_ref<T> a, std::nullopt_t)` (header lines 231-234). -/
def beq_nullopt (a : optional_ref) : Bool := !a.has_value

/-- `operator==(std::nullopt_t, optional_ref<T> b)` (header lines 235-238). -/
def nullopt_beq (b : optional_ref) : Bool := !b.has_value

/-- `operator!=(optional_ref<T> a, std::nullopt_t)` (header lines 239-242). -/
def bne_nullopt (a : optional_ref) : Bool := a.has_value

/-- `operator!=(std::nullopt_t, optional_ref<T> b)` (header lines 243-246). -/
def nullopt_bne (b : optional_ref) : Bool := b.has_value

/-- `operator==(const T& a, optional_ref<U> b)` (header lines 259-264):
`b.has_value() && a == *b`; the dereference only happens when `b` is present
(short-circuit), modelled by the dependent if. -/
def val_beq_ref {α β : Type} (memU : Nat → β) (eq : α → β → Bool)
    (a : α) (b : optional_ref) : Bool :=
  if h : b.has_value = true then eq a (memU (b.star h)) else false

/-- `operator==(optional_ref<T> a, const U& b)` (header lines 265-270):
defined as `b == a`, pure delegation to the value-vs-reference overload. -/
def ref_beq_val {α β : Type} (memT : Nat → α) (eq : β → α → Bool)
    (a : optional_ref) (b : β) : Bool :=
  val_beq_ref memT eq b a

/-- `operator==(optional_ref<T> a, optional_ref<U> b)` (header lines 252-255):
`a.has_value() ? *a == b : !b.has_value()`, where `*a == b` resolves to the
value-vs-reference overload above. -/
def ref_beq_ref {α β : Type} (memT : Nat → α) (memU : Nat → β)
    (eq : α → β → Bool) (a b : optional_ref) : Bool :=
  if h : a.has_value = true then val_beq_ref memU eq (memT (a.star h)) b
  else !b.has_value

/-- `operator!=(optional_ref<T> a, optional_ref<U> b)` (header lines 274-277):
`!(a == b)`. -/
def ref_bne_ref {α β : Type} (memT : Nat → α) (memU : Nat → β)
    (eq : α → β → Bool) (a b : optional_ref) : Bool :=
  !ref_beq_ref memT memU eq a b

/-- `operator!=(optional_ref<T> a, const U& b)` (header lines 278-283):
`!(a == b)`. -/
def ref_bne_val {α β : Type} (memT : Nat → α) (eq : β → α → Bool)
    (a : optional_ref) (b : β) : Bool :=
  !ref_beq_val memT eq a b

/-- `operator!=(const T& a, optional_ref<U> b)` (header lines 284-289):
`!(a == b)`. -/
def val_bne_ref {α β : Type} (memU : Nat → β) (eq : α → β → Bool)
    (a : α) (b : optional_ref) : Bool :=
  !val_beq_ref memU eq a b

/-- C1: equality of two optional references (possibly over different element
types) is value comparison, not address comparison: `a == b` holds iff both
are empty, or both are present and the referents' values satisfy the element
comparison — regardless of whether the two stored addresses coincide. In
particular present-vs-empty is never equal, empty-vs-empty always is, and two
present references at different addresses over equal values are equal. -/
theorem ref_eq_is_value_based {α β : Type} (memT : Nat → α) (memU : Nat → β)
    (eq : α → β → Bool) (a b : optional_ref) :
    ref_beq_ref memT memU eq a b = true ↔
      ((a.has_value = false ∧ b.has_value = false) ∨
        (∃ p q, a.ptr = some p ∧ b.ptr = some q ∧ eq (memT p) (memU q) = true)) := by
  obtain ⟨pa⟩ := a
  obtain ⟨pb⟩ := b
  cases pa <;> cases pb <;>
    simp [ref_beq_ref, val_beq_ref, optional_ref.has_value, optional_ref.star]

/-! ## Compile-time surface: constructor overload set and conversion gating -/

/-- The constructor overloads of `optional_ref<T>` as declared in the header
(lines 85-127), including the explicitly deleted one. -/
inductive CtorOverload where
  | defaultCtor
  | fromNullopt
  | fromLValue
  | fromConstStdOptional
  | fromMutStdOptional
  | fromPtr
  | fromNullptrLiteral
  | copyCtor
  | convertFromOther
deriving DecidableEq

/-- Whether the overload participates in overload resolution: every declared
constructor does, except the `std::nullptr_t` one, which is `= delete`
(header lines 114-115) precisely so that a bare null-pointer literal is
rejected at compile time. -/
def ctorAvailable : CtorOverload → Bool
  | CtorOverload.fromNullptrLiteral => false
  | _ => true

/-- A C++ object type in the reified universe the templated constructors
range over: a class identifier and whether the type is const-qualified. -/
structure CppTy where
  cls : Nat
  isConst : Bool
deriving DecidableEq

/-- The C++ implicit pointer-conversion rule `std::is_convertible_v<U*, T*>`
restricted to this universe: the classes are identical or the target class is
an unambiguous non-virtual base of the source class (`baseOf t u` = class `t`
is such a base of class `u`), and const qualification may be added but never
removed. -/
def is_convertible_ptr (baseOf : Nat → Nat → Bool) (U T : CppTy) : Bool :=
  (U.cls == T.cls || baseOf T.cls U.cls) && (!U.isConst || T.isConst)

/-- The gate `EnableIfConvertibleFrom<U>` of the templated constructors
(header lines 78-80): exactly `std::is_convertible_v<U*, T*>`. -/
def EnableIfConvertibleFrom (baseOf : Nat → Nat → Bool) (U T : CppTy) : Bool :=
  is_convertible_ptr baseOf U T

/-- Stated from the spec's words, for comparison with the gate above: a
conversion from an instance over `U` to an instance over `T` exists iff
`U* → T*` is a legal implicit pointer conversion — identity, adding const
qualification, or a non-virtual unambiguous upcast (with qualification
preserved or added). -/
def spec_pointer_conversion_legal (baseOf : Nat → Nat → Bool) (U T : CppTy) : Bool :=
  (U.cls == T.cls && U.isConst == T.isConst) ||
    (U.cls == T.cls && (!U.isConst && T.isConst)) ||
    (baseOf T.cls U.cls && (!U.isConst || T.isConst))

/-- The converting constructor from `optional_ref<U>` (header lines 124-127):
available exactly under the gate, and copies the other instance's stored
address via `as_pointer()`. -/
def convert_from (baseOf : Nat → Nat → Bool) (U T : CppTy)
    (_gate : EnableIfConvertibleFrom baseOf U T = true)
    (input : optional_ref) : optional_ref :=
  ⟨input.as_pointer⟩

/-! ## Which operations copy the referent

The public operations of the type, and which of them produce an owned copy of
the referent (as opposed to a reference or pointer to it). Read off the
declared result types in the header: `value_or` returns `T` by value (line
150) and returns `*ptr_` when present; `as_optional` returns
`std::optional<U>` holding `*ptr_` (lines 181-184). Every other operation
returns `T&`, `T*`, `bool`, or constructs a view, and never reads the
referent into an owned value. -/

/-- The public member operations of `optional_ref<T>` (header lines 85-184). -/
inductive ApiOp where
  | defaultCtor
  | nulloptCtor
  | lvalueCtor
  | stdOptionalCtor
  | ptrCtor
  | copyCtor
  | convertCtor
  | hasValue
  | valueAccessor
  | valueOr
  | starOp
  | arrowOp
  | asPointer
  | asOptional
deriving DecidableEq

/-- Whether the operation, applied to a present instance, copies the referent
into an owned value: true for `value_or` (result type `T`, header line 150)
and `as_optional` (result type `std::optional<U>`, header line 181); false
for every reference-, pointer-, or bool-returning operation and for every
constructor (all of which store only the address). -/
def copiesReferent : ApiOp → Bool
  | ApiOp.valueOr => true
  | ApiOp.asOptional => true
  | _ => false

/-! ## Claim theorems -/

/-- C2: the checked accessor `value()` returns the referent when the instance
is present; on an empty instance it signals the EmptyAccess error — the very
error an empty standard optional container's `value()` produces — and never
silently returns a value. -/
theorem value_checked_access (r : optional_ref) :
    (∀ h : r.has_value = true, r.value = Except.ok (r.star h)) ∧
      (r.has_value = false →
        r.value = Except.error AccessError.emptyAccess) ∧
      (r.has_value = false →
        r.value = std_optional_value (none : Option Nat)) := by
  obtain ⟨p⟩ := r
  cases p <;>
    simp [optional_ref.value, optional_ref.has_value, optional_ref.star,
      std_optional_value]

/-- C2 witness: at a present instance whose referent lives at address 0,
`value()` succeeds with that referent; at an empty instance it signals
EmptyAccess. -/
theorem value_checked_access_witness :
    (optional_ref.mk (some 0)).value = Except.ok 0 ∧
      (optional_ref.mk none).value = Except.error AccessError.emptyAccess :=
  ⟨(value_checked_access ⟨some 0⟩).1 rfl,
    (value_checked_access ⟨none⟩).2.1 rfl⟩

/-- C3: construction from a raw pointer yields a present instance iff the
pointer is non-null (and an empty instance iff it is null), while the
`std::nullptr_t` constructor overload is deleted, so a bare null-pointer
literal is rejected at compile time. -/
theorem from_pointer_and_nullptr_rejection :
    (∀ p : Option Nat, (optional_ref.ofPtr p).has_value = true ↔ p ≠ none) ∧
      ctorAvailable CtorOverload.fromNullptrLiteral = false := by
  refine ⟨fun p => ?_, rfl⟩
  cases p <;> simp [optional_ref.ofPtr, optional_ref.has_value]

/-- C5: `value_or(d)` returns the referent's value when the instance is
present and the default converted to the element type when it is empty; it is
a total function, so it never fails at runtime. -/
theorem value_or_spec {α β : Type} (mem : Nat → α) (conv : β → α)
    (r : optional_ref) (d : β) :
    (∀ h : r.has_value = true,
        optional_ref.value_or mem conv r d = mem (r.star h)) ∧
      (r.has_value = false → optional_ref.value_or mem conv r d = conv d) := by
  obtain ⟨p⟩ := r
  cases p <;>
    simp [optional_ref.value_or, optional_ref.has_value, optional_ref.star]

/-- C5 witness: with heap sending address 0 to 5, a present instance at 0 has
`value_or 2 = 5`, and an empty instance has `value_or 2 = 2`. -/
theorem value_or_spec_witness :
    optional_ref.value_or (fun _ => (5 : Nat)) id ⟨some 0⟩ 2 = 5 ∧
      optional_ref.value_or (fun _ => (5 : Nat)) id ⟨none⟩ 2 = 2 :=
  ⟨(value_or_spec (fun _ => (5 : Nat)) id ⟨some 0⟩ 2).1 rfl,
    (value_or_spec (fun _ => (5 : Nat)) id ⟨none⟩ 2).2 rfl⟩

/-- C7: every inequality operator returns exactly the Boolean negation of the
corresponding equality operator, for each of the five operand shapes:
instance vs empty marker (both orders), instance vs bare value (both orders),
and instance vs instance. -/
theorem ne_is_negation_of_eq {α β : Type} (memT : Nat → α) (memU : Nat → β)
    (eqTU : α → β → Bool) (eqUT : β → α → Bool)
    (a b : optional_ref) (v : α) (w : β) :
    bne_nullopt a = !beq_nullopt a ∧
      nullopt_bne b = !nullopt_beq b ∧
      ref_bne_val memT eqUT a w = !ref_beq_val memT eqUT a w ∧
      val_bne_ref memU eqTU v b = !val_beq_ref memU eqTU v b ∧
      ref_bne_ref memT memU eqTU a b = !ref_beq_ref memT memU eqTU a b := by
  refine ⟨?_, ?_, rfl, rfl, rfl⟩ <;>
    simp [bne_nullopt, beq_nullopt, nullopt_bne, nullopt_beq]

/-- C4: the converting constructor between instantiations is gated exactly by
pointer convertibility: the gate agrees with the spec's characterization
(identity, const-add, or non-virtual unambiguous upcast) for every class
hierarchy and every pair of types; a const-qualified source never converts to
the unqualified target; a base never converts to a (non-base) derived class;
and when the gate holds the conversion copies the stored address verbatim. -/
theorem conversion_gate_spec :
    (∀ (baseOf : Nat → Nat → Bool) (U T : CppTy),
        EnableIfConvertibleFrom baseOf U T =
          spec_pointer_conversion_legal baseOf U T) ∧
      (∀ (baseOf : Nat → Nat → Bool) (c : Nat),
        EnableIfConvertibleFrom baseOf (CppTy.mk c true) (CppTy.mk c false) =
          false) ∧
      (∀ (baseOf : Nat → Nat → Bool) (B D : CppTy), B.cls ≠ D.cls →
        baseOf D.cls B.cls = false →
        EnableIfConvertibleFrom baseOf B D = false) ∧
      (∀ (baseOf : Nat → Nat → Bool) (U T : CppTy)
        (h : EnableIfConvertibleFrom baseOf U T = true) (r : optional_ref),
        (convert_from baseOf U T h r).ptr = r.ptr) := by
  refine ⟨?_, ?_, ?_, ?_⟩
  · intro baseOf U T
    obtain ⟨uc, uq⟩ := U
    obtain ⟨tc, tq⟩ := T
    cases uq <;> cases tq <;>
      cases hb : baseOf tc uc <;>
        by_cases h : uc = tc <;>
          simp [EnableIfConvertibleFrom, is_convertible_ptr,
            spec_pointer_conversion_legal, h, hb]
  · intro baseOf c
    simp [EnableIfConvertibleFrom, is_convertible_ptr]
  · intro baseOf B D hcls hbase
    simp [EnableIfConvertibleFrom, is_convertible_ptr, hbase, hcls]
  · intro baseOf U T h r
    rfl

/-- A concrete two-class hierarchy, as in the repository's tests: class 0 is
the (sole, non-virtual) base of class 1. -/
def baseOf01 : Nat → Nat → Bool := fun b d => b == 0 && d == 1

/-- C4 witness: over the concrete hierarchy, base-to-derived conversion is
rejected, const-to-non-const conversion is rejected, and a legal
derived-to-const-base conversion copies the stored address. -/
theorem conversion_gate_witness :
    EnableIfConvertibleFrom baseOf01 (CppTy.mk 0 false) (CppTy.mk 1 false) =
        false ∧
      EnableIfConvertibleFrom baseOf01 (CppTy.mk 1 true) (CppTy.mk 1 false) =
        false ∧
      (convert_from baseOf01 (CppTy.mk 1 false) (CppTy.mk 0 true) (by decide)
          (optional_ref.mk (some 5))).ptr = some 5 :=
  ⟨conversion_gate_spec.2.2.1 baseOf01 ⟨0, false⟩ ⟨1, false⟩ (by decide)
      (by decide),
    conversion_gate_spec.2.1 baseOf01 1,
    conversion_gate_spec.2.2.2 baseOf01 ⟨1, false⟩ ⟨0, true⟩ (by decide)
      ⟨some 5⟩⟩

/-- C6 counterexample: `as_optional` is not the only operation of the type
that copies the referent — `value_or` also does (its declared result type is
the element type `T`, and it returns `*ptr_` when the instance is present,
header line 150), and it is a distinct operation. -/
theorem as_optional_not_only_copying_op :
    copiesReferent ApiOp.valueOr = true ∧ ApiOp.valueOr ≠ ApiOp.asOptional :=
  ⟨rfl, by decide⟩

/-- C6 amended: `as_optional` returns an owned optional container that is
empty when the instance is empty; when the instance is present it holds a
copy of the referent converted to `U` (equal to the referent under the
default identity conversion); and the operations of the type that copy the
referent are exactly `as_optional` and `value_or`. -/
theorem as_optional_spec {α β : Type} (mem : Nat → α) (conv : α → β)
    (r : optional_ref) :
    (r.has_value = false → optional_ref.as_optional mem conv r = none) ∧
      (∀ h : r.has_value = true,
        optional_ref.as_optional mem conv r = some (conv (mem (r.star h)))) ∧
      (∀ h : r.has_value = true,
        optional_ref.as_optional mem (fun x => x) r = some (mem (r.star h))) ∧
      (∀ op, copiesReferent op = true ↔
        (op = ApiOp.asOptional ∨ op = ApiOp.valueOr)) := by
  obtain ⟨p⟩ := r
  refine ⟨?_, ?_, ?_, ?_⟩
  · cases p <;> simp [optional_ref.as_optional, optional_ref.has_value]
  · cases p <;>
      simp [optional_ref.as_optional, optional_ref.has_value, optional_ref.star]
  · cases p <;>
      simp [optional_ref.as_optional, optional_ref.has_value, optional_ref.star]
  · intro op
    cases op <;> simp [copiesReferent]

/-- C6 witness: with the heap sending every address to 7, an empty instance
yields the empty container and a present instance yields a container holding
the referent's value. -/
theorem as_optional_spec_witness :
    optional_ref.as_optional (fun _ => (7 : Nat)) (fun x => x) ⟨none⟩ = none ∧
      optional_ref.as_optional (fun _ => (7 : Nat)) (fun x => x) ⟨some 4⟩ =
        some 7 :=
  ⟨(as_optional_spec (fun _ => (7 : Nat)) (fun x => x) ⟨none⟩).1 rfl,
    (as_optional_spec (fun _ => (7 : Nat)) (fun x => x) ⟨some 4⟩).2.1 rfl⟩

/-- C8: comparing a bare value to an optional reference holds iff the
reference is present and the value compares equal to the referent; the
reversed-operand overload is provided and agrees (by delegation); and the
empty-marker comparisons are decided solely by emptiness. The
equality-comparability gate is the `eq` function each operator requires: the
operator is only stated for element-type pairs that supply one. -/
theorem value_vs_ref_eq_spec :
    (∀ (α β : Type) (memU : Nat → β) (eq : α → β → Bool) (v : α)
        (b : optional_ref),
        val_beq_ref memU eq v b = true ↔
          (b.has_value = true ∧ ∃ p, b.ptr = some p ∧ eq v (memU p) = true)) ∧
      (∀ (α β : Type) (memT : Nat → α) (eq : β → α → Bool) (a : optional_ref)
        (w : β), ref_beq_val memT eq a w = val_beq_ref memT eq w a) ∧
      (∀ a : optional_ref,
        beq_nullopt a = !a.has_value ∧ nullopt_beq a = !a.has_value) := by
  refine ⟨?_, fun _ _ _ _ _ _ => rfl, fun _ => ⟨rfl, rfl⟩⟩
  intro α β memU eq v b
  obtain ⟨p⟩ := b
  cases p <;>
    simp [val_beq_ref, optional_ref.has_value, optional_ref.star]

/-- C8 witness: a value equal to the referent of a present reference compares
equal to it. -/
theorem value_vs_ref_eq_witness :
    val_beq_ref (fun _ => (5 : Nat)) (fun x y => decide (x = y)) 5 ⟨some 2⟩ =
      true :=
  (value_vs_ref_eq_spec.1 Nat Nat (fun _ => (5 : Nat))
      (fun x y => decide (x = y)) 5 ⟨some 2⟩).2 ⟨rfl, 2, rfl, by decide⟩

/-- C9: the observers cohere: `has_value()` is true exactly when
`as_pointer()` is non-null, and on a present instance `value()`, the
unchecked `operator*`/`operator->`, and `as_pointer()` all denote the same
referent address. -/
theorem observer_coherence (r : optional_ref) :
    (r.has_value = true ↔ r.as_pointer ≠ none) ∧
      ∀ h : r.has_value = true,
        r.as_pointer = some (r.star h) ∧
          r.value = Except.ok (r.star h) ∧
          r.arrow h = some (r.star h) := by
  obtain ⟨p⟩ := r
  cases p <;>
    simp [optional_ref.has_value, optional_ref.as_pointer, optional_ref.star,
      optional_ref.value, optional_ref.arrow]

/-- C9 witness: at a present instance with referent address 3, all four
accessors name address 3. -/
theorem observer_coherence_witness :
    (optional_ref.mk (some 3)).as_pointer = some 3 ∧
      (optional_ref.mk (some 3)).value = Except.ok 3 ∧
      (optional_ref.mk (some 3)).arrow rfl = some 3 :=
  ⟨((observer_coherence ⟨some 3⟩).2 rfl).1,
    ((observer_coherence ⟨some 3⟩).2 rfl).2.1,
    ((observer_coherence ⟨some 3⟩).2 rfl).2.2⟩

/-- C10: the reference-vs-value equality overload is pure delegation to the
value-vs-reference overload, so `r == v` returns exactly `v == r`; on a
present reference both run the underlying element comparison in the same
direction, as `v == *r` (the bare value on the left) — so the two operand
orders agree even when the element comparison is not commutative. -/
theorem ref_val_eq_delegates {α β : Type} (memT : Nat → α) (eq : β → α → Bool)
    (a : optional_ref) (v : β) :
    ref_beq_val memT eq a v = val_beq_ref memT eq v a ∧
      (∀ p, a.ptr = some p → ref_beq_val memT eq a v = eq v (memT p)) := by
  refine ⟨rfl, fun p hp => ?_⟩
  obtain ⟨q⟩ := a
  simp only [optional_ref.mk.injEq] at hp
  subst hp
  simp [ref_beq_val, val_beq_ref, optional_ref.has_value, optional_ref.star]

/-- C10 witness: with the non-commutative element comparison "less than",
a present reference with referent value 7 compared against the bare value 3
runs the comparison as 3 < 7 and both operand orders agree. -/
theorem ref_val_eq_delegates_witness :
    ref_beq_val (fun _ => (7 : Nat)) (fun x y => decide (x < y)) ⟨some 0⟩ 3 =
        true ∧
      ref_beq_val (fun _ => (7 : Nat)) (fun x y => decide (x < y)) ⟨some 0⟩ 3 =
        val_beq_ref (fun _ => (7 : Nat)) (fun x y => decide (x < y)) 3
          ⟨some 0⟩ := by
  constructor
  · have h := (ref_val_eq_delegates (fun _ => (7 : Nat))
      (fun x y => decide (x < y)) ⟨some 0⟩ 3).2 0 rfl
    simpa using h
  · exact (ref_val_eq_delegates (fun _ => (7 : Nat))
      (fun x y => decide (x < y)) ⟨some 0⟩ 3).1

/-- C1 witness: two present references at the distinct addresses 0 and 1
whose referents both hold the value 5 compare equal. -/
theorem ref_eq_is_value_based_witness :
    ref_beq_ref (fun _ => (5 : Nat)) (fun _ => (5 : Nat))
      (fun x y => decide (x = y)) ⟨some 0⟩ ⟨some 1⟩ = true :=
  (ref_eq_is_value_based (fun _ => (5 : Nat)) (fun _ => (5 : Nat))
      (fun x y => decide (x = y)) ⟨some 0⟩ ⟨some 1⟩).2
    (Or.inr ⟨0, 1, rfl, rfl, by decide⟩)

/-- C7 witness: at a present reference and an empty one, the
reference-vs-reference inequality is the negation of the equality. -/
theorem ne_is_negation_of_eq_witness :
    ref_bne_ref (fun _ => (1 : Nat)) (fun _ => (2 : Nat))
      (fun x y => decide (x = y)) ⟨some 0⟩ ⟨none⟩ = true := by
  have h := (ne_is_negation_of_eq (fun _ => (1 : Nat)) (fun _ => (2 : Nat))
    (fun x y => decide (x = y)) (fun x y => decide (x = y))
    ⟨some 0⟩ ⟨none⟩ 1 2).2.2.2.2
  rw [h]
  rfl
